import Mathlib

/-!
# Verification of the hdc302x driver core against its specification

Shallow embedding of the hdc302x Rust driver (src/device_impl.rs,
src/types.rs). Machine integers (`u8`, `u16`) are modelled as `Nat` with
explicit `% 256` where the source performs a truncating cast; fallible
operations return an explicit result type; the unbounded retry loop of
`cmd_and_read` is modelled with explicit fuel (`none` = still looping or
panicked, never an error value). Every bus or delay interaction is recorded
in a trace of actions, each write tagged with whether it was issued by the
transaction engine `cmd_and_read` or directly.
-/

set_option maxRecDepth 100000

namespace Hdc302x

/-! ## CRC-8 validator (device_impl.rs line 20, `Crc::<u8>::new(&CRC_8_NRSC_5)`)

The `crc` crate's `CRC_8_NRSC_5` algorithm is, per the published CRC
catalogue: width 8, polynomial 0x31, initial value 0xFF, no input
reflection, no output reflection, xorout 0x00. With those parameters the
computation is the standard MSB-first shift-register algorithm embedded
here. -/

/-- One shift step of the 8-bit CRC register: shift left, xor the
polynomial 0x31 iff the top bit was set, truncate to 8 bits. -/
def crc8Step (c : Nat) : Nat :=
  if c.testBit 7 then ((c <<< 1) ^^^ 0x31) % 256 else (c <<< 1) % 256

/-- Iterated `crc8Step`. -/
def crc8Steps : Nat → Nat → Nat
  | 0, c => c
  | n + 1, c => crc8Steps n (crc8Step c)

/-- Process one message byte: xor it into the register, then 8 shift steps. -/
def crc8Byte (c b : Nat) : Nat := crc8Steps 8 (c ^^^ b)

/-- Checksum as used at device_impl.rs:59 (`CRC.checksum(read_word)`):
CRC-8/NRSC-5 over the message bytes, register initialised to 0xFF. -/
def crcChecksum (bytes : List Nat) : Nat := bytes.foldl crc8Byte 0xFF

/-! ## Reference bit-serial CRC, from the specification's words (§4.1)

The spec describes the checksum as "1-byte checksum using a fixed
polynomial (NRSC-5 variant: polynomial 0x31, no input/output reflection)".
The textbook bit-serial form of such a CRC: the register starts at the
initial value; each message bit, most significant first, is compared with
the register's top bit; the register shifts left one place and xors in the
polynomial iff they differ. -/

/-- One bit of the reference serial CRC: incoming message bit `d` against
the register's top bit decides the polynomial feedback. -/
def crcSpecBitStep (r : Nat) (d : Bool) : Nat :=
  if r.testBit 7 = d then (r <<< 1) % 256 else ((r <<< 1) % 256) ^^^ 0x31

/-- Feed a list of message bits through the reference serial CRC register. -/
def crcSpecBits (r : Nat) : List Bool → Nat
  | [] => r
  | d :: ds => crcSpecBits (crcSpecBitStep r d) ds

/-- The bits of one byte, most significant first. -/
def byteBitsMSB (b : Nat) : List Bool :=
  [b.testBit 7, b.testBit 6, b.testBit 5, b.testBit 4,
   b.testBit 3, b.testBit 2, b.testBit 1, b.testBit 0]

/-- Reference checksum of a 2-byte word: 16 message bits, MSB first,
through the serial register initialised to 0xFF. -/
def crcSpecWord (b0 b1 : Nat) : Nat :=
  crcSpecBits 0xFF (byteBitsMSB b0 ++ byteBitsMSB b1)

/-- Proof helper: value of a bit list as preloaded at the top of the CRC
register (first bit at position 7, next at position 6, ...). -/
def listPack : List Bool → Nat
  | [] => 0
  | d :: ds => (if d then 0x80 else 0) ^^^ (listPack ds >>> 1)

/-! ## Error type (types.rs `Error<E>`) -/

/-- All possible errors in the driver, generic over the transport error. -/
inductive Error (E : Type) where
  /-- bus communication error -/
  | I2c (e : E)
  /-- invalid input data provided -/
  | InvalidInputData
  /-- failure of a checksum from the device was detected -/
  | CrcMismatch
deriving DecidableEq

/-- Result of a driver operation (Rust `Result<T, Error<E>>`). -/
inductive Res (E : Type) (α : Type) where
  /-- success -/
  | ok (val : α)
  /-- failure -/
  | fail (err : Error E)
deriving DecidableEq

/-- Response of the bus transport to a write (no data phase). -/
inductive WResp (E : Type) where
  /-- write acknowledged -/
  | ok
  /-- transport failure -/
  | err (e : E)
deriving DecidableEq

/-- Response of the bus transport to an operation with a data phase. -/
inductive RResp (E : Type) where
  /-- bytes delivered -/
  | ok (data : List Nat)
  /-- transport failure -/
  | err (e : E)
deriving DecidableEq

/-- One observable interaction of the driver: a bus write (tagged with
whether the transaction engine `cmd_and_read` issued it), a combined
write-then-read, a plain read, or a delay. Each bus action carries the
transport's response. -/
inductive Act (E : Type) where
  /-- bus write of `bytes`; `engine` is true iff issued inside `cmd_and_read` -/
  | write (engine : Bool) (bytes : List Nat) (resp : WResp E)
  /-- combined bus write-then-read of `len` bytes, only ever issued by the engine -/
  | writeRead (bytes : List Nat) (len : Nat) (resp : RResp E)
  /-- plain bus read of `len` bytes, only ever issued by the engine's retry loop -/
  | read (len : Nat) (resp : RResp E)
  /-- delay of `n` milliseconds -/
  | delayMs (n : Nat)
deriving DecidableEq

/-- True unless the action is a bus write issued outside `cmd_and_read`. -/
def Act.engineIssued {E : Type} : Act E → Bool
  | .write engine _ _ => engine
  | _ => true

/-- Environment: the transport's scripted responses, indexed by a counter
of bus operations performed so far (delays do not advance the counter). -/
structure Env (E : Type) where
  /-- response to the bus write performed as operation number `i` -/
  writeResp : Nat → WResp E
  /-- response to the combined write-read performed as operation number `i` -/
  writeReadResp : Nat → RResp E
  /-- response to the plain read performed as operation number `i` -/
  readResp : Nat → RResp E

/-! ## Transaction engine (device_impl.rs lines 36-68, `cmd_and_read`) -/

/-- Byte `i` of a buffer (missing positions read as the zero fill). -/
def byteAt (buf : List Nat) (i : Nat) : Nat := buf.getD i 0

/-- The 6-byte stack buffer `read_buf` after the transport delivered
`resp` into its first `3 * n` bytes: received bytes are `u8` (hence
`% 256`), the rest keeps the zero initialisation. -/
def fillBuf (resp : List Nat) (n : Nat) : List Nat :=
  ((resp.map fun b => b % 256) ++ List.replicate 6 0).take (3 * n)
    ++ List.replicate (6 - 3 * n) 0

/-- The validation loop of `cmd_and_read` (device_impl.rs lines 56-65):
check words `ii, ii+1, ...` (`k` of them) of `buf`; each 2-byte word must
be followed by its checksum byte; the first mismatch aborts with
`CrcMismatch`, otherwise the big-endian assembled words are returned in
order. -/
def checkWordsFrom {E : Type} (buf : List Nat) : Nat → Nat → Res E (List Nat)
  | _, 0 => .ok []
  | ii, k + 1 =>
    let b0 := byteAt buf (ii * 3)
    let b1 := byteAt buf (ii * 3 + 1)
    let rc := byteAt buf (ii * 3 + 2)
    if rc = crcChecksum [b0, b1] then
      match checkWordsFrom buf (ii + 1) k with
      | .ok rest => .ok ((b0 <<< 8 ||| b1) :: rest)
      | .fail err => .fail err
    else .fail .CrcMismatch

/-- The recovery loop of `cmd_and_read` (device_impl.rs lines 51-53):
plain reads of the same length, a 1 ms delay after each failure, until one
succeeds; `fuel` bounds the model only — exhausting it yields `none`
(still looping), never an error. Returns the received bytes, the next
operation counter and the trace. -/
def retryRead {E : Type} (env : Env E) (len : Nat) :
    Nat → Nat → Option (List Nat × Nat × List (Act E))
  | 0, _ => none
  | fuel + 1, ctr =>
    match env.readResp ctr with
    | .ok data => some (data, ctr + 1, [.read len (.ok data)])
    | .err e =>
      match retryRead env len fuel (ctr + 1) with
      | none => none
      | some (data, c, tr) =>
        some (data, c, .read len (.err e) :: .delayMs 1 :: tr)

/-- The transaction engine `cmd_and_read` (device_impl.rs lines 36-68).
`numVals > 2` models the `assert!` panic as `none`. With `numVals = 0` it
writes the opcode and surfaces a transport failure as `Error.I2c`. With
`numVals` of 1 or 2 it issues a combined write-read of `3 * numVals`
bytes, falls into the recovery loop on transport failure, and finally
validates each word's checksum. -/
def cmdAndRead {E : Type} (env : Env E) (cmdBytes : List Nat) (numVals : Nat)
    (fuel ctr : Nat) : Option (Res E (List Nat) × Nat × List (Act E)) :=
  if 2 < numVals then none
  else if numVals = 0 then
    match env.writeResp ctr with
    | .err e => some (.fail (.I2c e), ctr + 1, [.write true cmdBytes (.err e)])
    | .ok => some (.ok [], ctr + 1, [.write true cmdBytes .ok])
  else
    match env.writeReadResp ctr with
    | .ok data =>
      some (checkWordsFrom (fillBuf data numVals) 0 numVals, ctr + 1,
        [.writeRead cmdBytes (3 * numVals) (.ok data)])
    | .err e =>
      match retryRead env (3 * numVals) fuel (ctr + 1) with
      | none => none
      | some (data, c, tr) =>
        some (checkWordsFrom (fillBuf data numVals) 0 numVals, c,
          .writeRead cmdBytes (3 * numVals) (.err e) :: tr)

/-! ## Command opcodes

Modelled from the spec: the command table lives in hw_def.rs, which is not
under src/; the spec (§2, §6) says each logical command maps to a fixed
16-bit opcode sent big-endian as 2 bytes. The numeric values below follow
the device datasheet; no claim depends on them beyond their being fixed
and distinct. -/

/-- Modelled from the spec: heater-disable opcode bytes. -/
def heaterDisableBytes : List Nat := [0x30, 0x66]

/-- Modelled from the spec: heater-enable opcode bytes. -/
def heaterEnableBytes : List Nat := [0x30, 0x6D]

/-- Modelled from the spec: heater-configure opcode bytes (a 2-byte level
parameter is appended on the wire). -/
def heaterConfigBytes : List Nat := [0x30, 0x6E]

/-- Modelled from the spec: status-read opcode bytes. -/
def statusReadBytes : List Nat := [0xF3, 0x2D]

/-- Modelled from the spec: status-clear opcode bytes. -/
def statusClearBytes : List Nat := [0x30, 0x41]

/-- Modelled from the spec: serial-ID bits 47:32 read opcode bytes. -/
def serialID54Bytes : List Nat := [0x36, 0x83]

/-- Modelled from the spec: serial-ID bits 31:16 read opcode bytes. -/
def serialID32Bytes : List Nat := [0x36, 0x84]

/-- Modelled from the spec: serial-ID bits 15:0 read opcode bytes. -/
def serialID10Bytes : List Nat := [0x36, 0x85]

/-- Modelled from the spec: manufacturer-ID read opcode bytes. -/
def manufacturerIDBytes : List Nat := [0x37, 0x81]

/-- Modelled from the spec: soft-reset opcode bytes. -/
def softResetBytes : List Nat := [0x30, 0xA2]

/-- Modelled from the spec: auto-mode-exit opcode bytes. -/
def autoExitBytes : List Nat := [0x30, 0x93]

/-- Modelled from the spec: auto-read last temperature and humidity opcode. -/
def autoReadTempRHBytes : List Nat := [0xE0, 0x00]

/-- Modelled from the spec: auto-read minimum temperature opcode. -/
def autoReadMinTempBytes : List Nat := [0xE0, 0x02]

/-- Modelled from the spec: auto-read maximum temperature opcode. -/
def autoReadMaxTempBytes : List Nat := [0xE0, 0x05]

/-- Modelled from the spec: auto-read minimum relative humidity opcode. -/
def autoReadMinRHBytes : List Nat := [0xE0, 0x03]

/-- Modelled from the spec: auto-read maximum relative humidity opcode. -/
def autoReadMaxRHBytes : List Nat := [0xE0, 0x04]

/-- Sample rate selector for start-sampling commands (hw_def.rs, modelled
from the spec: one-shot plus the five auto rates). -/
inductive SampleRate where
  /-- a single on-demand measurement -/
  | OneShot
  /-- auto mode at 0.5 Hz -/
  | Auto500mHz
  /-- auto mode at 1 Hz -/
  | Auto1Hz
  /-- auto mode at 2 Hz -/
  | Auto2Hz
  /-- auto mode at 4 Hz -/
  | Auto4Hz
  /-- auto mode at 10 Hz -/
  | Auto10Hz
deriving DecidableEq

/-- Low-power mode selector (hw_def.rs, modelled from the spec: lowest
noise through lowest power). -/
inductive LowPowerMode where
  /-- lowest noise -/
  | Mode0
  /-- low noise -/
  | Mode1
  /-- low power -/
  | Mode2
  /-- lowest power -/
  | Mode3
deriving DecidableEq

/-- Modelled from the spec: first opcode byte of a start-sampling command,
selected by the sample rate (hw_def.rs `start_sampling_command`). -/
def sampleRateByte : SampleRate → Nat
  | .OneShot => 0x24
  | .Auto500mHz => 0x20
  | .Auto1Hz => 0x21
  | .Auto2Hz => 0x22
  | .Auto4Hz => 0x23
  | .Auto10Hz => 0x27

/-- Modelled from the spec: second opcode byte of a start-sampling
command, selected by the low-power mode. -/
def lowPowerModeByte : LowPowerMode → Nat
  | .Mode0 => 0x00
  | .Mode1 => 0x0B
  | .Mode2 => 0x16
  | .Mode3 => 0xFF

/-- Modelled from the spec: the 2 opcode bytes of a start-sampling
command parameterised by rate and power mode. -/
def startSamplingBytes (rate : SampleRate) (lpm : LowPowerMode) : List Nat :=
  [sampleRateByte rate, lowPowerModeByte lpm]

/-! ## Result data types (types.rs) -/

/-- Raw (still in u16 format) temperature and/or humidity from the device
(types.rs `RawDatum`; the pair case inlines `RawTempAndRelHumid`). -/
inductive RawDatum where
  /-- temperature and relative humidity from one-shot or auto mode -/
  | TempAndRelHumid (temperature humidity : Nat)
  /-- minimum temperature since auto mode was enabled -/
  | MinTemp (v : Nat)
  /-- maximum temperature since auto mode was enabled -/
  | MaxTemp (v : Nat)
  /-- minimum relative humidity since auto mode was enabled -/
  | MinRelHumid (v : Nat)
  /-- maximum relative humidity since auto mode was enabled -/
  | MaxRelHumid (v : Nat)
deriving DecidableEq

/-- Target selector for `auto_read` (lib.rs / hw_def.rs `AutoReadTarget`). -/
inductive AutoReadTarget where
  /-- most recent temperature and humidity pair -/
  | LastTempAndRelHumid
  /-- minimum temperature -/
  | MinTemp
  /-- maximum temperature -/
  | MaxTemp
  /-- minimum relative humidity -/
  | MinRelHumid
  /-- maximum relative humidity -/
  | MaxRelHumid
deriving DecidableEq

/-- Status bits from the device (types.rs `StatusBits`): the raw word is
retained alongside ten decoded boolean flags. -/
structure StatusBits where
  /-- the raw 16-bit status word -/
  raw : Nat
  /-- at least one alert is active -/
  at_least_one_alert : Bool
  /-- heater is enabled -/
  heater_enabled : Bool
  /-- relative humidity tracking alert -/
  rh_tracking_alert : Bool
  /-- temperature tracking alert -/
  t_tracking_alert : Bool
  /-- relative humidity high tracking alert -/
  rh_high_tracking_alert : Bool
  /-- relative humidity low tracking alert -/
  rh_low_tracking_alert : Bool
  /-- temperature high tracking alert -/
  t_high_tracking_alert : Bool
  /-- temperature low tracking alert -/
  t_low_tracking_alert : Bool
  /-- reset (power-on or software) detected since last clear -/
  reset_since_clear : Bool
  /-- failure of a checksum from the driver was detected -/
  checksum_failure : Bool
deriving DecidableEq

/-- Field extraction as written in types.rs lines 196-205:
`(raw >> LSBIT) & ((1 << WIDTH) - 1) != 0`. -/
def statusBit (raw lsbit width : Nat) : Bool :=
  (raw >>> lsbit) &&& ((1 <<< width) - 1) != 0

/-- Decode a raw status word (types.rs `StatusBits::from`). The bit
positions live in hw_def.rs, which is not under src/; modelled from the
spec (§6) defers them to the datasheet: alert 15, heater 13, RH tracking
11, T tracking 10, RH high 9, RH low 8, T high 7, T low 6, reset 4,
checksum 0; every width is 1. -/
def statusBitsFrom (raw : Nat) : StatusBits :=
  { raw := raw
    at_least_one_alert := statusBit raw 15 1
    heater_enabled := statusBit raw 13 1
    rh_tracking_alert := statusBit raw 11 1
    t_tracking_alert := statusBit raw 10 1
    rh_high_tracking_alert := statusBit raw 9 1
    rh_low_tracking_alert := statusBit raw 8 1
    t_high_tracking_alert := statusBit raw 7 1
    t_low_tracking_alert := statusBit raw 6 1
    reset_since_clear := statusBit raw 4 1
    checksum_failure := statusBit raw 0 1 }

/-- Modelled from the spec: the well-known manufacturer constant
`MANUFACTURER_ID_TEXAS_INSTRUMENTS` lives in hw_def.rs (not under src/);
its numeric value (datasheet: 0x3000) is immaterial to the claims. -/
def MANUFACTURER_ID_TEXAS_INSTRUMENTS : Nat := 0x3000

/-- Manufacturer ID of the device (types.rs `ManufacturerId`). -/
inductive ManufacturerId where
  /-- Texas Instruments -/
  | TexasInstruments
  /-- any other vendor, the raw value retained -/
  | Other (id : Nat)
deriving DecidableEq

/-- Conversion from a raw 16-bit value (types.rs `From<u16>` lines 274-281). -/
def manufacturerIdFromU16 (raw : Nat) : ManufacturerId :=
  if raw = MANUFACTURER_ID_TEXAS_INSTRUMENTS then .TexasInstruments
  else .Other raw

/-- Conversion back into a 16-bit value (types.rs `Into<u16>` lines 282-289). -/
def manufacturerIdIntoU16 : ManufacturerId → Nat
  | .TexasInstruments => MANUFACTURER_ID_TEXAS_INSTRUMENTS
  | .Other id => id

/-- Heater level selector (hw_def.rs `HeaterLevel`, not under src/).
Modelled from the spec: levels off, 25%, 50% and 100%. -/
inductive HeaterLevel where
  /-- heater off -/
  | Off
  /-- heater at quarter power -/
  | Quarter
  /-- heater at half power -/
  | Half
  /-- heater at full power -/
  | Full
deriving DecidableEq

/-- Modelled from the spec: hw_def.rs `HeaterLevel::setting` maps "off" to
no configuration word and each nonzero level to a nonzero 14-bit
configuration word (values from the datasheet; only the none/some split
matters to the claims). -/
def HeaterLevel.setting : HeaterLevel → Option Nat
  | .Off => none
  | .Quarter => some 0x009F
  | .Half => some 0x03FF
  | .Full => some 0x3FFF

/-! ## Command sequences (device_impl.rs lines 70-181) -/

/-- Trigger a one-shot measurement (device_impl.rs `one_shot`). -/
def oneShot {E : Type} (env : Env E) (lpm : LowPowerMode) (fuel ctr : Nat) :
    Option (Res E RawDatum × Nat × List (Act E)) :=
  match cmdAndRead env (startSamplingBytes .OneShot lpm) 2 fuel ctr with
  | none => none
  | some (.fail err, c, tr) => some (.fail err, c, tr)
  | some (.ok vals, c, tr) =>
    some (.ok (.TempAndRelHumid (vals.getD 0 0) (vals.getD 1 0)), c, tr)

/-- Enter auto mode (device_impl.rs `auto_start`). -/
def autoStart {E : Type} (env : Env E) (rate : SampleRate)
    (lpm : LowPowerMode) (fuel ctr : Nat) :
    Option (Res E Unit × Nat × List (Act E)) :=
  match cmdAndRead env (startSamplingBytes rate lpm) 0 fuel ctr with
  | none => none
  | some (.fail err, c, tr) => some (.fail err, c, tr)
  | some (.ok _, c, tr) => some (.ok (), c, tr)

/-- Exit auto mode (device_impl.rs `auto_stop`). -/
def autoStop {E : Type} (env : Env E) (fuel ctr : Nat) :
    Option (Res E Unit × Nat × List (Act E)) :=
  match cmdAndRead env autoExitBytes 0 fuel ctr with
  | none => none
  | some (.fail err, c, tr) => some (.fail err, c, tr)
  | some (.ok _, c, tr) => some (.ok (), c, tr)

/-- Opcode bytes selected by an auto-read target (device_impl.rs lines
96-102). -/
def autoReadBytes : AutoReadTarget → List Nat
  | .LastTempAndRelHumid => autoReadTempRHBytes
  | .MinTemp => autoReadMinTempBytes
  | .MaxTemp => autoReadMaxTempBytes
  | .MinRelHumid => autoReadMinRHBytes
  | .MaxRelHumid => autoReadMaxRHBytes

/-- Reply length selected by an auto-read target (device_impl.rs lines
105-111: the full buffer for the pair, one word otherwise). -/
def autoReadLen : AutoReadTarget → Nat
  | .LastTempAndRelHumid => 2
  | _ => 1

/-- Read from auto mode (device_impl.rs `auto_read`). -/
def autoRead {E : Type} (env : Env E) (target : AutoReadTarget)
    (fuel ctr : Nat) : Option (Res E RawDatum × Nat × List (Act E)) :=
  match cmdAndRead env (autoReadBytes target) (autoReadLen target) fuel ctr with
  | none => none
  | some (.fail err, c, tr) => some (.fail err, c, tr)
  | some (.ok vals, c, tr) =>
    some (.ok (match target with
      | .LastTempAndRelHumid => .TempAndRelHumid (vals.getD 0 0) (vals.getD 1 0)
      | .MinTemp => .MinTemp (vals.getD 0 0)
      | .MaxTemp => .MaxTemp (vals.getD 0 0)
      | .MinRelHumid => .MinRelHumid (vals.getD 0 0)
      | .MaxRelHumid => .MaxRelHumid (vals.getD 0 0)), c, tr)

/-- Condensation heater control (device_impl.rs `heater`, lines 128-141):
always send heater-disable first; for a nonzero level, write the
heater-configure opcode with the 2-byte setting appended — note this write
goes to the bus directly, not through `cmd_and_read` — then send
heater-enable. -/
def heater {E : Type} (env : Env E) (heater_level : HeaterLevel)
    (fuel ctr : Nat) : Option (Res E Unit × Nat × List (Act E)) :=
  match cmdAndRead env heaterDisableBytes 0 fuel ctr with
  | none => none
  | some (.fail err, c, tr) => some (.fail err, c, tr)
  | some (.ok _, c, tr) =>
    match heater_level.setting with
    | none => some (.ok (), c, tr)
    | some s =>
      let cfg := heaterConfigBytes ++ [(s >>> 8) % 256, s % 256]
      match env.writeResp c with
      | .err e => some (.fail (.I2c e), c + 1, tr ++ [.write false cfg (.err e)])
      | .ok =>
        match cmdAndRead env heaterEnableBytes 0 fuel (c + 1) with
        | none => none
        | some (.fail err, c2, tr2) =>
          some (.fail err, c2, tr ++ [.write false cfg .ok] ++ tr2)
        | some (.ok _, c2, tr2) =>
          some (.ok (), c2, tr ++ [.write false cfg .ok] ++ tr2)

/-- Read and optionally clear status bits (device_impl.rs `read_status`,
lines 144-152). Note the clear step's failure propagates through `?`. -/
def readStatus {E : Type} (env : Env E) (clear : Bool) (fuel ctr : Nat) :
    Option (Res E StatusBits × Nat × List (Act E)) :=
  match cmdAndRead env statusReadBytes 1 fuel ctr with
  | none => none
  | some (.fail err, c, tr) => some (.fail err, c, tr)
  | some (.ok vals, c, tr) =>
    if clear then
      match cmdAndRead env statusClearBytes 0 fuel c with
      | none => none
      | some (.fail err, c2, tr2) => some (.fail err, c2, tr ++ tr2)
      | some (.ok _, c2, tr2) =>
        some (.ok (statusBitsFrom (vals.getD 0 0)), c2, tr ++ tr2)
    else some (.ok (statusBitsFrom (vals.getD 0 0)), c, tr)

/-- Read the serial number (device_impl.rs `read_serial_number`, lines
155-168): three 1-word reads, high, mid, low; the returned list is the
`bytes` array in index order 0..5 (bytes[5] receives the high word's top
byte). -/
def readSerialNumber {E : Type} (env : Env E) (fuel ctr : Nat) :
    Option (Res E (List Nat) × Nat × List (Act E)) :=
  match cmdAndRead env serialID54Bytes 1 fuel ctr with
  | none => none
  | some (.fail err, c, tr) => some (.fail err, c, tr)
  | some (.ok v54, c1, tr1) =>
    match cmdAndRead env serialID32Bytes 1 fuel c1 with
    | none => none
    | some (.fail err, c, tr2) => some (.fail err, c, tr1 ++ tr2)
    | some (.ok v32, c2, tr2) =>
      match cmdAndRead env serialID10Bytes 1 fuel c2 with
      | none => none
      | some (.fail err, c, tr3) => some (.fail err, c, tr1 ++ tr2 ++ tr3)
      | some (.ok v10, c3, tr3) =>
        some (.ok [v10.getD 0 0 % 256, (v10.getD 0 0 >>> 8) % 256,
                   v32.getD 0 0 % 256, (v32.getD 0 0 >>> 8) % 256,
                   v54.getD 0 0 % 256, (v54.getD 0 0 >>> 8) % 256],
              c3, tr1 ++ tr2 ++ tr3)

/-- Read the manufacturer ID (device_impl.rs `read_manufacturer_id`). -/
def readManufacturerId {E : Type} (env : Env E) (fuel ctr : Nat) :
    Option (Res E ManufacturerId × Nat × List (Act E)) :=
  match cmdAndRead env manufacturerIDBytes 1 fuel ctr with
  | none => none
  | some (.fail err, c, tr) => some (.fail err, c, tr)
  | some (.ok vals, c, tr) =>
    some (.ok (manufacturerIdFromU16 (vals.getD 0 0)), c, tr)

/-- Software reset (device_impl.rs `software_reset`). -/
def softwareReset {E : Type} (env : Env E) (fuel ctr : Nat) :
    Option (Res E Unit × Nat × List (Act E)) :=
  match cmdAndRead env softResetBytes 0 fuel ctr with
  | none => none
  | some (.fail err, c, tr) => some (.fail err, c, tr)
  | some (.ok _, c, tr) => some (.ok (), c, tr)

/-! ## Helpers for stating the claims -/

/-- The trace of a finished run (empty if the model ran out of fuel). -/
def traceOf {E α : Type} : Option (Res E α × Nat × List (Act E)) → List (Act E)
  | some (_, _, tr) => tr
  | none => []

/-- The result of a finished run. -/
def resultOf {E α : Type} : Option (Res E α × Nat × List (Act E)) → Option (Res E α)
  | some (r, _, _) => some r
  | none => none

/-- Trace shape of `k` failed recovery-loop attempts: each failed plain
read of `len` bytes is followed by a 1 ms delay. -/
def retryTrace {E : Type} (errAt : Nat → E) (len : Nat) : Nat → List (Act E)
  | 0 => []
  | k + 1 =>
    .read len (.err (errAt 0)) :: .delayMs 1 ::
      retryTrace (fun i => errAt (i + 1)) len k

/-! ## Concrete example environments (transport error type `Nat`) -/

/-- Example environment: every write acknowledged, every data phase
delivers the valid word 0xBE 0xEF with its checksum. -/
def envAllOk : Env Nat :=
  { writeResp := fun _ => .ok
    writeReadResp := fun _ => .ok [0xBE, 0xEF, crcChecksum [0xBE, 0xEF]]
    readResp := fun _ => .ok [0xBE, 0xEF, crcChecksum [0xBE, 0xEF]] }

/-- Example environment: every bus operation fails with transport error 3. -/
def envWriteFail : Env Nat :=
  { writeResp := fun _ => .err 3
    writeReadResp := fun _ => .err 3
    readResp := fun _ => .err 3 }

/-- Example environment for the serial number: the three word reads
deliver 0xAABB, 0xCCDD, 0xEEFF (high, mid, low) with valid checksums. -/
def envSerial : Env Nat :=
  { writeResp := fun _ => .ok
    writeReadResp := fun i =>
      if i = 0 then .ok [0xAA, 0xBB, crcChecksum [0xAA, 0xBB]]
      else if i = 1 then .ok [0xCC, 0xDD, crcChecksum [0xCC, 0xDD]]
      else .ok [0xEE, 0xFF, crcChecksum [0xEE, 0xFF]]
    readResp := fun _ => .ok [] }

/-- Example environment for status read/clear: the status word 0x2000 is
delivered with a valid checksum, then the clear write (bus operation 1)
fails with transport error 7. -/
def envStatusClearFail : Env Nat :=
  { writeResp := fun i => if i = 1 then .err 7 else .ok
    writeReadResp := fun _ => .ok [0x20, 0x00, crcChecksum [0x20, 0x00]]
    readResp := fun _ => .ok [] }

/-- Example environment for a two-word read delivering 0xBE 0xEF and
0x12 0x34 with valid checksums. -/
def envTwoWords : Env Nat :=
  { writeResp := fun _ => .ok
    writeReadResp := fun _ =>
      .ok [0xBE, 0xEF, crcChecksum [0xBE, 0xEF],
           0x12, 0x34, crcChecksum [0x12, 0x34]]
    readResp := fun _ => .ok [] }

/-- Example environment for the recovery loop: the combined write-read
fails with error 3, the first plain read fails with error 4, the second
succeeds with a valid word. -/
def envRetry : Env Nat :=
  { writeResp := fun _ => .ok
    writeReadResp := fun _ => .err 3
    readResp := fun i =>
      if i = 2 then .ok [0xBE, 0xEF, crcChecksum [0xBE, 0xEF]] else .err 4 }

/-- Example environment where the combined write-read fails with error 3
and every plain read fails with error 4. -/
def envAllReadsFail : Env Nat :=
  { writeResp := fun _ => .ok
    writeReadResp := fun _ => .err 3
    readResp := fun _ => .err 4 }

/-- Example environment where the heater-enable write (bus operation 2)
fails with transport error 5. -/
def envEnableFail : Env Nat :=
  { writeResp := fun i => if i = 2 then .err 5 else .ok
    writeReadResp := fun _ => .err 9
    readResp := fun _ => .err 9 }

/-! ## Lemmas: CRC-8 -/

/-- Shifting left distributes over xor. -/
theorem xor_shiftLeft_distrib (x y n : Nat) :
    (x ^^^ y) <<< n = x <<< n ^^^ y <<< n := by
  apply Nat.eq_of_testBit_eq
  intro i
  rcases Nat.lt_or_ge i n with h | h
  · simp [Nat.testBit_shiftLeft, Nat.testBit_xor, Nat.not_le.mpr h]
  · simp [Nat.testBit_shiftLeft, Nat.testBit_xor, h]

/-- Truncation to a power of two distributes over xor. -/
theorem xor_mod_two_pow_distrib (x y n : Nat) :
    (x ^^^ y) % 2 ^ n = x % 2 ^ n ^^^ y % 2 ^ n := by
  apply Nat.eq_of_testBit_eq
  intro i
  rcases Nat.lt_or_ge i n with h | h
  · simp [Nat.testBit_mod_two_pow, Nat.testBit_xor, h]
  · simp [Nat.testBit_mod_two_pow, Nat.testBit_xor, Nat.not_lt.mpr h]

/-- Truncation to a byte distributes over xor. -/
theorem xor_mod256_distrib (x y : Nat) :
    (x ^^^ y) % 256 = x % 256 ^^^ y % 256 := by
  have h := xor_mod_two_pow_distrib x y 8
  norm_num at h
  exact h

/-- The CRC step always yields a byte. -/
theorem crc8Step_lt (c : Nat) : crc8Step c < 256 := by
  unfold crc8Step
  split <;> exact Nat.mod_lt _ (by norm_num)

/-- Iterated CRC steps stay within a byte. -/
theorem crc8Steps_lt : ∀ (n c : Nat), c < 256 → crc8Steps n c < 256
  | 0, _, hc => hc
  | n + 1, c, _ => crc8Steps_lt n (crc8Step c) (crc8Step_lt c)

/-- A byte update of a byte register yields a byte. -/
theorem crc8Byte_lt (c b : Nat) (hc : c < 256) (hb : b < 256) :
    crc8Byte c b < 256 :=
  crc8Steps_lt 8 _ (Nat.xor_lt_two_pow (n := 8) (by omega) (by omega))

/-- Xoring a sub-top-bit value into the register commutes with one CRC
step, the value shifting along. -/
theorem crc8Step_xor (x y : Nat) (hy : y < 128) :
    crc8Step (x ^^^ y) = crc8Step x ^^^ y <<< 1 := by
  have hbit : (x ^^^ y).testBit 7 = x.testBit 7 := by
    rw [Nat.testBit_xor, Nat.testBit_lt_two_pow (show y < 2 ^ 7 by omega)]
    simp
  have hylt : y <<< 1 < 256 := by rw [Nat.shiftLeft_eq]; omega
  have hmod : y <<< 1 % 256 = y <<< 1 := Nat.mod_eq_of_lt hylt
  unfold crc8Step
  rw [hbit, xor_shiftLeft_distrib]
  by_cases hb : x.testBit 7 = true
  · rw [if_pos hb, if_pos hb]
    rw [show x <<< 1 ^^^ y <<< 1 ^^^ 0x31 = (x <<< 1 ^^^ 0x31) ^^^ y <<< 1 by
      rw [Nat.xor_assoc, Nat.xor_assoc, Nat.xor_comm (y <<< 1)]]
    rw [xor_mod256_distrib, hmod]
  · rw [if_neg hb, if_neg hb, xor_mod256_distrib, hmod]

/-- The reference serial step always yields a byte. -/
theorem crcSpecBitStep_lt (r : Nat) (d : Bool) : crcSpecBitStep r d < 256 := by
  unfold crcSpecBitStep
  split
  · exact Nat.mod_lt _ (by norm_num)
  · exact Nat.xor_lt_two_pow (n := 8) (Nat.mod_lt _ (by norm_num)) (by norm_num)

/-- The reference serial step is the CRC step with the message bit
preloaded into the register's top bit. -/
theorem crcSpecBitStep_eq_step :
    ∀ r < 256, ∀ d : Bool,
      crcSpecBitStep r d = crc8Step (r ^^^ if d then 0x80 else 0) := by decide

/-- A packed bit list is a byte. -/
theorem listPack_lt : ∀ ds : List Bool, listPack ds < 256
  | [] => by simp [listPack]
  | d :: ds => by
    have h := listPack_lt ds
    have h1 : (if d then 0x80 else 0 : Nat) < 2 ^ 8 := by cases d <;> norm_num
    have h2 : listPack ds >>> 1 < 2 ^ 8 := by
      rw [Nat.shiftRight_eq_div_pow]
      omega
    exact Nat.xor_lt_two_pow h1 h2

/-- The bits of a packed list of at most 8 bits sit at the top of the
byte: all positions below `8 - length` are clear. -/
theorem listPack_testBit_low :
    ∀ ds : List Bool, ∀ i : Nat, i < 8 - ds.length →
      (listPack ds).testBit i = false
  | [], i, _ => Nat.zero_testBit i
  | d :: ds, i, hi => by
    have hlen : i + 1 < 8 - ds.length := by
      simp only [List.length_cons] at hi
      omega
    have h1 : (listPack ds).testBit (i + 1) = false :=
      listPack_testBit_low ds (i + 1) hlen
    have h2 : (if d then 0x80 else 0 : Nat).testBit i = false := by
      have hi7 : i ≠ 7 := by
        simp only [List.length_cons] at hi
        omega
      cases d
      · exact Nat.zero_testBit i
      · show (0x80 : Nat).testBit i = false
        rw [show (0x80 : Nat) = 2 ^ 7 by norm_num, Nat.testBit_two_pow]
        simp only [decide_eq_false_iff_not]
        omega
    show ((if d then 0x80 else 0) ^^^ listPack ds >>> 1).testBit i = false
    rw [Nat.testBit_xor, h2, Nat.testBit_shiftRight, Nat.add_comm, h1]
    rfl

/-- A packed list of at most 7 bits is even: halving then doubling is the
identity on it. -/
theorem listPack_shift (ds : List Bool) (h : ds.length ≤ 7) :
    listPack ds >>> 1 <<< 1 = listPack ds := by
  have h0 : (listPack ds).testBit 0 = false :=
    listPack_testBit_low ds 0 (by omega)
  rw [Nat.testBit_zero] at h0
  have h2 : listPack ds % 2 = 0 := by
    rcases Nat.mod_two_eq_zero_or_one (listPack ds) with h | h
    · exact h
    · simp [h] at h0
  rw [Nat.shiftRight_eq_div_pow, Nat.shiftLeft_eq]
  omega

/-- Main serial/preloaded correspondence: feeding at most 8 message bits
serially equals preloading them at the top of the register and running the
same number of plain CRC steps. -/
theorem crcSpecBits_eq_steps :
    ∀ ds : List Bool, ds.length ≤ 8 → ∀ c : Nat, c < 256 →
      crcSpecBits c ds = crc8Steps ds.length (c ^^^ listPack ds)
  | [], _, c, _ => by simp [crcSpecBits, listPack, crc8Steps]
  | d :: ds, hlen, c, hc => by
    have hlen7 : ds.length ≤ 7 := by
      simp only [List.length_cons] at hlen
      omega
    have ih := crcSpecBits_eq_steps ds (by omega) (crcSpecBitStep c d)
      (crcSpecBitStep_lt c d)
    show crcSpecBits (crcSpecBitStep c d) ds =
      crc8Steps (ds.length + 1) (c ^^^ listPack (d :: ds))
    rw [ih]
    show crc8Steps ds.length (crcSpecBitStep c d ^^^ listPack ds) =
      crc8Steps ds.length (crc8Step (c ^^^ listPack (d :: ds)))
    congr 1
    have hp : listPack ds >>> 1 < 128 := by
      have := listPack_lt ds
      rw [Nat.shiftRight_eq_div_pow]
      omega
    calc crcSpecBitStep c d ^^^ listPack ds
        = crc8Step (c ^^^ if d then 0x80 else 0) ^^^ listPack ds >>> 1 <<< 1 := by
          rw [crcSpecBitStep_eq_step c hc d, listPack_shift ds hlen7]
      _ = crc8Step ((c ^^^ if d then 0x80 else 0) ^^^ listPack ds >>> 1) := by
          rw [crc8Step_xor _ _ hp]
      _ = crc8Step (c ^^^ listPack (d :: ds)) := by
          rw [Nat.xor_assoc]
          rfl

/-- The packed MSB-first bit list of a byte is the byte itself. -/
theorem listPack_byteBits : ∀ b < 256, listPack (byteBitsMSB b) = b := by decide

/-- Serial processing of one byte's bits equals the implementation's byte
update. -/
theorem crcSpecBits_byte (c b : Nat) (hc : c < 256) (hb : b < 256) :
    crcSpecBits c (byteBitsMSB b) = crc8Byte c b := by
  have h8 : (byteBitsMSB b).length = 8 := rfl
  rw [crcSpecBits_eq_steps (byteBitsMSB b) (le_of_eq h8) c hc, h8,
    listPack_byteBits b hb]
  rfl

/-- Serial processing concatenates. -/
theorem crcSpecBits_append (r : Nat) (xs ys : List Bool) :
    crcSpecBits r (xs ++ ys) = crcSpecBits (crcSpecBits r xs) ys := by
  induction xs generalizing r with
  | nil => rfl
  | cons d xs ih => simp [crcSpecBits, ih]

/-- C3 counterexample: the claim asserts initial value 0x00 and in
particular that the checksum of bytes [0x00, 0x00] is 0x00; the checksum
function of the code (CRC-8/NRSC-5, initial value 0xFF) yields 0x81 on
that input. -/
theorem C3_counterexample_init_value :
    crcChecksum [0x00, 0x00] = 0x81 ∧ (0x81 : Nat) ≠ 0x00 := by decide

/-- C3 (amended): the checksum function over every 2-byte word is
deterministic (it is a function of the word alone) and equals the 8-bit
CRC with polynomial 0x31, initial value 0xFF and no input/output
reflection, here in reference bit-serial form; in particular the checksum
of bytes [0x00, 0x00] is 0x81. -/
theorem C3_checksum_matches_reference (b0 b1 : Nat)
    (h0 : b0 < 256) (h1 : b1 < 256) :
    crcChecksum [b0, b1] = crcSpecWord b0 b1 ∧ crcChecksum [0x00, 0x00] = 0x81 := by
  constructor
  · have hff : (0xFF : Nat) < 256 := by norm_num
    have hc1 : crc8Byte 0xFF b0 < 256 := crc8Byte_lt _ _ hff h0
    unfold crcSpecWord
    rw [crcSpecBits_append, crcSpecBits_byte _ _ hff h0,
      crcSpecBits_byte _ _ hc1 h1]
    rfl
  · decide

/-- Witness for C3 at the datasheet-style example word 0xBE 0xEF. -/
theorem C3_checksum_matches_reference_witness :
    crcChecksum [0xBE, 0xEF] = crcSpecWord 0xBE 0xEF :=
  (C3_checksum_matches_reference 0xBE 0xEF (by decide) (by decide)).1

/-! ## Lemmas: the transaction engine -/

/-- The low byte of a big-endian assembled word. -/
theorem word_lo (b0 b1 : Nat) (h1 : b1 < 256) :
    (b0 <<< 8 ||| b1) % 256 = b1 := by
  rw [show (256 : Nat) = 2 ^ 8 by norm_num]
  apply Nat.eq_of_testBit_eq
  intro i
  rw [Nat.testBit_mod_two_pow, Nat.testBit_or, Nat.testBit_shiftLeft]
  rcases Nat.lt_or_ge i 8 with h | h
  · simp [h, Nat.not_le.mpr h]
  · have hb1 : b1.testBit i = false :=
      Nat.testBit_lt_two_pow
        (lt_of_lt_of_le h1 (Nat.pow_le_pow_right (show 0 < 2 by norm_num) h))
    simp [Nat.not_lt.mpr h, hb1]

/-- The high byte of a big-endian assembled word. -/
theorem word_hi (b0 b1 : Nat) (h1 : b1 < 256) :
    (b0 <<< 8 ||| b1) >>> 8 = b0 := by
  apply Nat.eq_of_testBit_eq
  intro i
  rw [Nat.testBit_shiftRight, Nat.testBit_or, Nat.testBit_shiftLeft]
  have hb1 : b1.testBit (8 + i) = false :=
    Nat.testBit_lt_two_pow
      (lt_of_lt_of_le h1
        (Nat.pow_le_pow_right (show 0 < 2 by norm_num) (Nat.le_add_right 8 i)))
  simp [hb1, Nat.le_add_right]

/-- The engine's 6-byte buffer after a 3-byte response of bytes. -/
theorem fillBuf_one (b0 b1 b2 : Nat)
    (h0 : b0 < 256) (h1 : b1 < 256) (h2 : b2 < 256) :
    fillBuf [b0, b1, b2] 1 = [b0, b1, b2, 0, 0, 0] := by
  simp [fillBuf, List.replicate_succ, Nat.mod_eq_of_lt, h0, h1, h2]

/-- The engine's 6-byte buffer after a 6-byte response of bytes. -/
theorem fillBuf_two (b0 b1 b2 b3 b4 b5 : Nat)
    (h0 : b0 < 256) (h1 : b1 < 256) (h2 : b2 < 256)
    (h3 : b3 < 256) (h4 : b4 < 256) (h5 : b5 < 256) :
    fillBuf [b0, b1, b2, b3, b4, b5] 2 = [b0, b1, b2, b3, b4, b5] := by
  simp [fillBuf, List.replicate_succ, Nat.mod_eq_of_lt, h0, h1, h2, h3, h4, h5]

/-- Validation of a single word in the buffer. -/
theorem checkWordsFrom_one {E : Type} (b0 b1 b2 : Nat) :
    checkWordsFrom (E := E) [b0, b1, b2, 0, 0, 0] 0 1 =
      if b2 = crcChecksum [b0, b1] then .ok [b0 <<< 8 ||| b1]
      else .fail .CrcMismatch := by
  simp only [checkWordsFrom, byteAt]
  norm_num [List.getD]

/-- Validation of two words in the buffer: the first mismatch decides. -/
theorem checkWordsFrom_two {E : Type} (b0 b1 b2 b3 b4 b5 : Nat) :
    checkWordsFrom (E := E) [b0, b1, b2, b3, b4, b5] 0 2 =
      if b2 = crcChecksum [b0, b1] then
        (if b5 = crcChecksum [b3, b4] then
           .ok [b0 <<< 8 ||| b1, b3 <<< 8 ||| b4]
         else .fail .CrcMismatch)
      else .fail .CrcMismatch := by
  simp only [checkWordsFrom, byteAt]
  norm_num [List.getD]
  by_cases h2 : b2 = crcChecksum [b0, b1] <;>
    by_cases h5 : b5 = crcChecksum [b3, b4] <;>
      simp [h2, h5]

/-- The validation loop never produces a bus error. -/
theorem checkWordsFrom_ne_i2c {E : Type} (e : E) :
    ∀ (m : Nat) (buf : List Nat) (ii : Nat),
      checkWordsFrom (E := E) buf ii m ≠ .fail (.I2c e)
  | 0, _, _ => by simp [checkWordsFrom]
  | m + 1, buf, ii => by
    have ih := checkWordsFrom_ne_i2c e m buf (ii + 1)
    simp only [checkWordsFrom]
    split
    · split
      · simp
      · next heq => simp [heq ▸ ih]
    · simp

/-- Engine reduction: reply length 1, successful write-read. -/
theorem cmdAndRead_one_ok {E : Type} (env : Env E) (cmd : List Nat)
    (fuel ctr : Nat) (b0 b1 b2 : Nat)
    (h0 : b0 < 256) (h1 : b1 < 256) (h2 : b2 < 256)
    (hw : env.writeReadResp ctr = .ok [b0, b1, b2]) :
    cmdAndRead env cmd 1 fuel ctr =
      some ((if b2 = crcChecksum [b0, b1] then .ok [b0 <<< 8 ||| b1]
             else .fail .CrcMismatch), ctr + 1,
        [.writeRead cmd 3 (.ok [b0, b1, b2])]) := by
  simp [cmdAndRead, hw, fillBuf_one b0 b1 b2 h0 h1 h2, checkWordsFrom_one]

/-- Engine reduction: reply length 2, successful write-read. -/
theorem cmdAndRead_two_ok {E : Type} (env : Env E) (cmd : List Nat)
    (fuel ctr : Nat) (b0 b1 b2 b3 b4 b5 : Nat)
    (h0 : b0 < 256) (h1 : b1 < 256) (h2 : b2 < 256)
    (h3 : b3 < 256) (h4 : b4 < 256) (h5 : b5 < 256)
    (hw : env.writeReadResp ctr = .ok [b0, b1, b2, b3, b4, b5]) :
    cmdAndRead env cmd 2 fuel ctr =
      some ((if b2 = crcChecksum [b0, b1] then
               (if b5 = crcChecksum [b3, b4] then
                  .ok [b0 <<< 8 ||| b1, b3 <<< 8 ||| b4]
                else .fail .CrcMismatch)
             else .fail .CrcMismatch), ctr + 1,
        [.writeRead cmd 6 (.ok [b0, b1, b2, b3, b4, b5])]) := by
  simp [cmdAndRead, hw, fillBuf_two b0 b1 b2 b3 b4 b5 h0 h1 h2 h3 h4 h5,
    checkWordsFrom_two]

/-- C4: for every opcode, `cmd_and_read` with reply length N in {1, 2}
requests exactly 3N bytes; once bytes are obtained it validates each
word's trailing checksum byte in order, aborting at the first mismatch
with a checksum-mismatch error (no retry, no further words checked: the
second reply word's bytes are universally quantified and do not affect a
first-word mismatch), and on success returns the N validated words
big-endian assembled in request order. -/
theorem C4_engine_read_validation {E : Type} (env : Env E) (cmd : List Nat)
    (fuel ctr : Nat) (b0 b1 b2 b3 b4 b5 : Nat)
    (h0 : b0 < 256) (h1 : b1 < 256) (h2 : b2 < 256)
    (h3 : b3 < 256) (h4 : b4 < 256) (h5 : b5 < 256) :
    (env.writeReadResp ctr = .ok [b0, b1, b2] →
      cmdAndRead env cmd 1 fuel ctr =
        some ((if b2 = crcChecksum [b0, b1] then .ok [b0 <<< 8 ||| b1]
               else .fail .CrcMismatch), ctr + 1,
          [.writeRead cmd 3 (.ok [b0, b1, b2])]))
    ∧ (env.writeReadResp ctr = .ok [b0, b1, b2, b3, b4, b5] →
      cmdAndRead env cmd 2 fuel ctr =
        some ((if b2 = crcChecksum [b0, b1] then
                 (if b5 = crcChecksum [b3, b4] then
                    .ok [b0 <<< 8 ||| b1, b3 <<< 8 ||| b4]
                  else .fail .CrcMismatch)
               else .fail .CrcMismatch), ctr + 1,
          [.writeRead cmd 6 (.ok [b0, b1, b2, b3, b4, b5])])) :=
  ⟨cmdAndRead_one_ok env cmd fuel ctr b0 b1 b2 h0 h1 h2,
   cmdAndRead_two_ok env cmd fuel ctr b0 b1 b2 b3 b4 b5 h0 h1 h2 h3 h4 h5⟩

/-- Witness for C4: a valid one-word reply assembles 0xBEEF; corrupting
only the checksum byte of word 0 in a two-word reply fails with
a checksum mismatch. -/
theorem C4_engine_read_validation_witness :
    cmdAndRead envAllOk [0xE0, 0x00] 1 5 0 =
      some (.ok [0xBEEF], 1,
        [.writeRead [0xE0, 0x00] 3 (.ok [0xBE, 0xEF, crcChecksum [0xBE, 0xEF]])])
    ∧ cmdAndRead envTwoWords [0x24, 0x00] 2 5 0 =
      some (.ok [0xBEEF, 0x1234], 1,
        [.writeRead [0x24, 0x00] 6
          (.ok [0xBE, 0xEF, crcChecksum [0xBE, 0xEF],
                0x12, 0x34, crcChecksum [0x12, 0x34]])]) := by
  constructor
  · have h := (C4_engine_read_validation envAllOk [0xE0, 0x00] 5 0
      0xBE 0xEF (crcChecksum [0xBE, 0xEF]) 0 0 0
      (by decide) (by decide) (by decide) (by decide) (by decide) (by decide)).1 rfl
    rw [h]
    decide
  · have h := (C4_engine_read_validation envTwoWords [0x24, 0x00] 5 0
      0xBE 0xEF (crcChecksum [0xBE, 0xEF])
      0x12 0x34 (crcChecksum [0x12, 0x34])
      (by decide) (by decide) (by decide) (by decide) (by decide) (by decide)).2 rfl
    rw [h]
    decide

/-- Engine reduction: reply length 0, failing write. -/
theorem cmdAndRead_zero_err {E : Type} (env : Env E) (cmd : List Nat)
    (fuel ctr : Nat) (e : E) (hw : env.writeResp ctr = .err e) :
    cmdAndRead env cmd 0 fuel ctr =
      some (.fail (.I2c e), ctr + 1, [.write true cmd (.err e)]) := by
  simp [cmdAndRead, hw]

/-- Engine reduction: reply length 0, acknowledged write. -/
theorem cmdAndRead_zero_ok {E : Type} (env : Env E) (cmd : List Nat)
    (fuel ctr : Nat) (hw : env.writeResp ctr = .ok) :
    cmdAndRead env cmd 0 fuel ctr =
      some (.ok [], ctr + 1, [.write true cmd .ok]) := by
  simp [cmdAndRead, hw]

/-- C5: for every opcode, `cmd_and_read` with reply length 0 issues only
a bus write of the opcode (no data or read phase appears in the trace),
and a transport failure of that write is surfaced immediately as an
`I2c` bus error wrapping the transport error, with no retry. -/
theorem C5_zero_reply_write_only {E : Type} (env : Env E) (cmd : List Nat)
    (fuel ctr : Nat) :
    (∀ e : E, env.writeResp ctr = .err e →
      cmdAndRead env cmd 0 fuel ctr =
        some (.fail (.I2c e), ctr + 1, [.write true cmd (.err e)]))
    ∧ (env.writeResp ctr = .ok →
      cmdAndRead env cmd 0 fuel ctr =
        some (.ok [], ctr + 1, [.write true cmd .ok])) := by
  constructor
  · intro e hw
    simp [cmdAndRead, hw]
  · intro hw
    simp [cmdAndRead, hw]

/-- Witness for C5: a failing soft-reset write surfaces transport error 3
as a bus error, the trace holding only that write. -/
theorem C5_zero_reply_write_only_witness :
    cmdAndRead envWriteFail [0x30, 0xA2] 0 5 0 =
      some (.fail (.I2c 3), 1, [.write true [0x30, 0xA2] (.err 3)])
    ∧ cmdAndRead envAllOk [0x30, 0xA2] 0 5 0 =
      some (.ok [], 1, [.write true [0x30, 0xA2] .ok]) :=
  ⟨(C5_zero_reply_write_only envWriteFail [0x30, 0xA2] 5 0).1 3 rfl,
   (C5_zero_reply_write_only envAllOk [0x30, 0xA2] 5 0).2 rfl⟩

/-- Recovery loop reduction: `k` failed plain reads, each followed by a
1 ms delay, then a successful read ends the loop. -/
theorem retryRead_ok {E : Type} (env : Env E) (len : Nat) (data : List Nat)
    (k : Nat) : ∀ (errAt : Nat → E) (fuel ctr : Nat), k < fuel →
      (∀ i, i < k → env.readResp (ctr + i) = .err (errAt i)) →
      env.readResp (ctr + k) = .ok data →
      retryRead env len fuel ctr =
        some (data, ctr + k + 1,
          retryTrace errAt len k ++ [.read len (.ok data)]) := by
  induction k with
  | zero =>
    intro errAt fuel ctr hf he hs
    obtain ⟨f, rfl⟩ : ∃ f, fuel = f + 1 := ⟨fuel - 1, by omega⟩
    rw [Nat.add_zero] at hs
    simp [retryRead, hs, retryTrace]
  | succ k ih =>
    intro errAt fuel ctr hf he hs
    obtain ⟨f, rfl⟩ : ∃ f, fuel = f + 1 := ⟨fuel - 1, by omega⟩
    have h0 : env.readResp ctr = .err (errAt 0) := by
      have h := he 0 (by omega)
      rwa [Nat.add_zero] at h
    have ihr := ih (fun i => errAt (i + 1)) f (ctr + 1) (by omega)
      (fun i hi => by
        have h := he (i + 1) (by omega)
        rwa [show ctr + (i + 1) = ctr + 1 + i by omega] at h)
      (by rwa [show ctr + 1 + k = ctr + (k + 1) by omega])
    simp only [retryRead, h0, ihr, retryTrace]
    refine congrArg some (Prod.ext rfl (Prod.ext ?_ ?_)) <;> simp
    omega

/-- The recovery loop keeps looping (no result, in particular no error)
while every plain read fails. -/
theorem retryRead_allFail {E : Type} (env : Env E) (len : Nat)
    (errAt : Nat → E) (hre : ∀ i : Nat, env.readResp i = .err (errAt i)) :
    ∀ fuel ctr : Nat, retryRead env len fuel ctr = none
  | 0, _ => rfl
  | fuel + 1, ctr => by
    simp [retryRead, hre ctr, retryRead_allFail env len errAt hre fuel (ctr + 1)]

/-- C6: for reply length N in {1, 2}, a transport failure of the combined
write-read is never surfaced as an error by itself: the engine enters a
recovery loop of plain reads of the same 3N-byte length with a 1 ms delay
between attempts and no attempt bound (`k`, the number of failures before
the first success, is universally quantified; if every read fails the
model yields no result at any fuel, never an error), and only the loop's
eventual success — followed by checksum validation, which never produces
a bus error — is visible to the caller. -/
theorem C6_writeRead_failure_recovery {E : Type} (env : Env E)
    (cmd : List Nat) (n : Nat) (e0 : E) (errAt : Nat → E) (data : List Nat)
    (k fuel ctr : Nat)
    (hn : n = 1 ∨ n = 2)
    (hw : env.writeReadResp ctr = .err e0)
    (he : ∀ i, i < k → env.readResp (ctr + 1 + i) = .err (errAt i))
    (hs : env.readResp (ctr + 1 + k) = .ok data)
    (hf : k < fuel) :
    (cmdAndRead env cmd n fuel ctr =
      some (checkWordsFrom (fillBuf data n) 0 n, ctr + k + 2,
        .writeRead cmd (3 * n) (.err e0) ::
          (retryTrace errAt (3 * n) k ++ [.read (3 * n) (.ok data)])))
    ∧ (∀ e : E, ∀ m : Nat, ∀ buf : List Nat, ∀ ii : Nat,
        checkWordsFrom (E := E) buf ii m ≠ .fail (.I2c e))
    ∧ (∀ env2 : Env E, env2.writeReadResp ctr = .err e0 →
        (∀ i : Nat, env2.readResp i = .err (errAt i)) →
        cmdAndRead env2 cmd n fuel ctr = none) := by
  refine ⟨?_, fun e m buf ii => checkWordsFrom_ne_i2c e m buf ii, ?_⟩
  · have hr := retryRead_ok env (3 * n) data k errAt fuel (ctr + 1) hf he hs
    have hc : ctr + 1 + k + 1 = ctr + k + 2 := by omega
    rcases hn with rfl | rfl <;> simp [cmdAndRead, hw, hr, hc]
  · intro env2 hw2 hre2
    have hnone := retryRead_allFail env2 (3 * n) errAt hre2 fuel (ctr + 1)
    rcases hn with rfl | rfl <;> simp [cmdAndRead, hw2, hnone]

/-- Witness for C6: with the write-read failing and the first plain read
failing, the second read's valid word is returned after exactly one
read/delay retry pair; with all reads failing the model never returns. -/
theorem C6_writeRead_failure_recovery_witness :
    (cmdAndRead envRetry [0xE0, 0x00] 1 5 0 =
      some (.ok [0xBEEF], 3,
        [.writeRead [0xE0, 0x00] 3 (.err 3),
         .read 3 (.err 4), .delayMs 1,
         .read 3 (.ok [0xBE, 0xEF, crcChecksum [0xBE, 0xEF]])]))
    ∧ cmdAndRead envAllReadsFail [0xE0, 0x00] 1 5 0 = none := by
  have h := C6_writeRead_failure_recovery envRetry [0xE0, 0x00] 1 3
    (fun _ => 4) [0xBE, 0xEF, crcChecksum [0xBE, 0xEF]] 1 5 0
    (Or.inl rfl) rfl (by decide) rfl (by decide)
  constructor
  · rw [h.1]
    decide
  · exact h.2.2 envAllReadsFail rfl (fun i => rfl)

/-! ## Lemmas: command sequences -/

/-- The checksum of a 2-byte word is a byte. -/
theorem crcChecksum_word_lt (a b : Nat) (ha : a < 256) (hb : b < 256) :
    crcChecksum [a, b] < 256 :=
  crc8Byte_lt _ _ (crc8Byte_lt 0xFF a (by norm_num) ha) hb

/-- C1 counterexample: reading the serial words 0xAABB, 0xCCDD, 0xEEFF
(high, mid, low) yields the byte array [FF, EE, DD, CC, BB, AA] — the
high word's bytes in the highest slots, low byte first within each slot —
not the big-endian array [AA, BB, CC, DD, EE, FF] the claim asserts. -/
theorem C1_counterexample_byte_order :
    resultOf (readSerialNumber envSerial 5 0) =
      some (.ok [0xFF, 0xEE, 0xDD, 0xCC, 0xBB, 0xAA])
    ∧ resultOf (readSerialNumber envSerial 5 0) ≠
        some (.ok [0xAA, 0xBB, 0xCC, 0xDD, 0xEE, 0xFF]) := by decide

/-- C1 (amended): for every three validated serial-ID words read in order
high, mid, low, `read_serial_number` returns a 6-byte serial number in
which each word is written little-endian into its corresponding 2-byte
slot with the least-significant pair first: index `i` of the array holds
the byte of significance `i`, so read from highest index to lowest (as the
`Display` implementation does) the bytes are the words' bytes in
decreasing significance. -/
theorem C1_serial_assembly {E : Type} (env : Env E) (fuel ctr : Nat)
    (h0 h1 m0 m1 l0 l1 : Nat)
    (hh0 : h0 < 256) (hh1 : h1 < 256) (hm0 : m0 < 256) (hm1 : m1 < 256)
    (hl0 : l0 < 256) (hl1 : l1 < 256)
    (hw0 : env.writeReadResp ctr = .ok [h0, h1, crcChecksum [h0, h1]])
    (hw1 : env.writeReadResp (ctr + 1) = .ok [m0, m1, crcChecksum [m0, m1]])
    (hw2 : env.writeReadResp (ctr + 2) = .ok [l0, l1, crcChecksum [l0, l1]]) :
    readSerialNumber env fuel ctr =
      some (.ok [l1, l0, m1, m0, h1, h0], ctr + 3,
        [.writeRead serialID54Bytes 3 (.ok [h0, h1, crcChecksum [h0, h1]]),
         .writeRead serialID32Bytes 3 (.ok [m0, m1, crcChecksum [m0, m1]]),
         .writeRead serialID10Bytes 3 (.ok [l0, l1, crcChecksum [l0, l1]])]) := by
  have e0 := cmdAndRead_one_ok env serialID54Bytes fuel ctr h0 h1 _ hh0 hh1
    (crcChecksum_word_lt h0 h1 hh0 hh1) hw0
  have e1 := cmdAndRead_one_ok env serialID32Bytes fuel (ctr + 1) m0 m1 _
    hm0 hm1 (crcChecksum_word_lt m0 m1 hm0 hm1) hw1
  have e2 := cmdAndRead_one_ok env serialID10Bytes fuel (ctr + 2) l0 l1 _
    hl0 hl1 (crcChecksum_word_lt l0 l1 hl0 hl1) hw2
  rw [if_pos rfl] at e0 e1 e2
  simp only [readSerialNumber, e0, e1, e2, List.getD_cons_zero]
  rw [word_lo h0 h1 hh1, word_lo m0 m1 hm1, word_lo l0 l1 hl1,
    word_hi h0 h1 hh1, word_hi m0 m1 hm1, word_hi l0 l1 hl1,
    Nat.mod_eq_of_lt hh0, Nat.mod_eq_of_lt hm0, Nat.mod_eq_of_lt hl0]
  norm_num

/-- Witness for C1 at the words 0xAABB, 0xCCDD, 0xEEFF. -/
theorem C1_serial_assembly_witness :
    readSerialNumber envSerial 5 0 =
      some (.ok [0xFF, 0xEE, 0xDD, 0xCC, 0xBB, 0xAA], 3,
        [.writeRead serialID54Bytes 3 (.ok [0xAA, 0xBB, crcChecksum [0xAA, 0xBB]]),
         .writeRead serialID32Bytes 3 (.ok [0xCC, 0xDD, crcChecksum [0xCC, 0xDD]]),
         .writeRead serialID10Bytes 3 (.ok [0xEE, 0xFF, crcChecksum [0xEE, 0xFF]])]) :=
  C1_serial_assembly envSerial 5 0 0xAA 0xBB 0xCC 0xDD 0xEE 0xFF
    (by decide) (by decide) (by decide) (by decide) (by decide) (by decide)
    rfl rfl rfl

/-- C2 counterexample: with the status word read succeeding (word 0x2000)
and the subsequent clear write failing with transport error 7, the caller
receives the clear step's bus error — the pre-clear status is discarded,
contrary to the claim. -/
theorem C2_counterexample_clear_failure :
    resultOf (readStatus envStatusClearFail true 5 0) = some (.fail (.I2c 7))
    ∧ resultOf (readStatus envStatusClearFail true 5 0) ≠
        some (.ok (statusBitsFrom 0x2000)) := by decide

/-- C2 (amended): for every call to `read_status` with the clear flag
requested, if the status-read transaction succeeds and the subsequent
status-clear transaction fails, the clear step's failure propagates (via
`?`): the caller receives the bus error and the pre-clear status is
discarded; only when the clear transaction also succeeds does the caller
receive the pre-clear status. -/
theorem C2_clear_failure_discards_status {E : Type} (env : Env E)
    (fuel ctr : Nat) (s0 s1 : Nat) (hs0 : s0 < 256) (hs1 : s1 < 256)
    (hw : env.writeReadResp ctr = .ok [s0, s1, crcChecksum [s0, s1]]) :
    (∀ e : E, env.writeResp (ctr + 1) = .err e →
      readStatus env true fuel ctr =
        some (.fail (.I2c e), ctr + 2,
          [.writeRead statusReadBytes 3 (.ok [s0, s1, crcChecksum [s0, s1]]),
           .write true statusClearBytes (.err e)]))
    ∧ (env.writeResp (ctr + 1) = .ok →
      readStatus env true fuel ctr =
        some (.ok (statusBitsFrom (s0 <<< 8 ||| s1)), ctr + 2,
          [.writeRead statusReadBytes 3 (.ok [s0, s1, crcChecksum [s0, s1]]),
           .write true statusClearBytes .ok])) := by
  have e0 := cmdAndRead_one_ok env statusReadBytes fuel ctr s0 s1 _ hs0 hs1
    (crcChecksum_word_lt s0 s1 hs0 hs1) hw
  rw [if_pos rfl] at e0
  constructor
  · intro e hcl
    have ecl := cmdAndRead_zero_err env statusClearBytes fuel (ctr + 1) e hcl
    simp only [readStatus]
    rw [e0]
    simp only [ecl]
    simp [List.getD]
  · intro hcl
    have ecl := cmdAndRead_zero_ok env statusClearBytes fuel (ctr + 1) hcl
    simp only [readStatus]
    rw [e0]
    simp only [ecl]
    simp [List.getD]

/-- Witness for C2 at status word 0x2000 and clear-write error 7. -/
theorem C2_clear_failure_discards_status_witness :
    readStatus envStatusClearFail true 5 0 =
      some (.fail (.I2c 7), 2,
        [.writeRead statusReadBytes 3 (.ok [0x20, 0x00, crcChecksum [0x20, 0x00]]),
         .write true statusClearBytes (.err 7)]) :=
  (C2_clear_failure_discards_status envStatusClearFail 5 0 0x20 0x00
    (by decide) (by decide) rfl).1 7 rfl

/-- Heater reduction: the disable write fails (any level). -/
theorem heater_disable_fail {E : Type} (env : Env E) (fuel ctr : Nat)
    (level : HeaterLevel) (e : E) (hw : env.writeResp ctr = .err e) :
    heater env level fuel ctr =
      some (.fail (.I2c e), ctr + 1,
        [.write true heaterDisableBytes (.err e)]) := by
  simp only [heater, cmdAndRead_zero_err env heaterDisableBytes fuel ctr e hw]

/-- Heater reduction: level off, disable acknowledged. -/
theorem heater_off_ok {E : Type} (env : Env E) (fuel ctr : Nat)
    (level : HeaterLevel) (hset : level.setting = none)
    (hw : env.writeResp ctr = .ok) :
    heater env level fuel ctr =
      some (.ok (), ctr + 1, [.write true heaterDisableBytes .ok]) := by
  simp only [heater, cmdAndRead_zero_ok env heaterDisableBytes fuel ctr hw, hset]

/-- Heater reduction: nonzero level, the direct configure write fails. -/
theorem heater_config_fail {E : Type} (env : Env E) (fuel ctr : Nat)
    (level : HeaterLevel) (s : Nat) (e : E) (hset : level.setting = some s)
    (hw0 : env.writeResp ctr = .ok) (hw1 : env.writeResp (ctr + 1) = .err e) :
    heater env level fuel ctr =
      some (.fail (.I2c e), ctr + 2,
        [.write true heaterDisableBytes .ok,
         .write false (heaterConfigBytes ++ [(s >>> 8) % 256, s % 256]) (.err e)]) := by
  simp only [heater, cmdAndRead_zero_ok env heaterDisableBytes fuel ctr hw0, hset, hw1]
  simp

/-- Heater reduction: nonzero level, disable and configure acknowledged,
the enable write fails. -/
theorem heater_enable_fail {E : Type} (env : Env E) (fuel ctr : Nat)
    (level : HeaterLevel) (s : Nat) (e : E) (hset : level.setting = some s)
    (hw0 : env.writeResp ctr = .ok) (hw1 : env.writeResp (ctr + 1) = .ok)
    (hw2 : env.writeResp (ctr + 2) = .err e) :
    heater env level fuel ctr =
      some (.fail (.I2c e), ctr + 3,
        [.write true heaterDisableBytes .ok,
         .write false (heaterConfigBytes ++ [(s >>> 8) % 256, s % 256]) .ok,
         .write true heaterEnableBytes (.err e)]) := by
  have h2 : env.writeResp (ctr + 1 + 1) = .err e := by
    rw [show ctr + 1 + 1 = ctr + 2 by omega]
    exact hw2
  simp only [heater, cmdAndRead_zero_ok env heaterDisableBytes fuel ctr hw0, hset, hw1,
    cmdAndRead_zero_err env heaterEnableBytes fuel (ctr + 1 + 1) e h2]
  simp

/-- Heater reduction: nonzero level, all three writes acknowledged. -/
theorem heater_on_ok {E : Type} (env : Env E) (fuel ctr : Nat)
    (level : HeaterLevel) (s : Nat) (hset : level.setting = some s)
    (hw0 : env.writeResp ctr = .ok) (hw1 : env.writeResp (ctr + 1) = .ok)
    (hw2 : env.writeResp (ctr + 2) = .ok) :
    heater env level fuel ctr =
      some (.ok (), ctr + 3,
        [.write true heaterDisableBytes .ok,
         .write false (heaterConfigBytes ++ [(s >>> 8) % 256, s % 256]) .ok,
         .write true heaterEnableBytes .ok]) := by
  have h2 : env.writeResp (ctr + 1 + 1) = .ok := by
    rw [show ctr + 1 + 1 = ctr + 2 by omega]
    exact hw2
  simp only [heater, cmdAndRead_zero_ok env heaterDisableBytes fuel ctr hw0, hset, hw1,
    cmdAndRead_zero_ok env heaterEnableBytes fuel (ctr + 1 + 1) h2]
  simp

/-- C7: for every requested heater level the operation first sends
heater-disable; a level mapping to "off" issues no further commands,
while a level mapping to a nonzero setting is followed by
heater-configure — the 2-byte level parameter appended to the opcode —
and heater-enable, in that order; a failure at any step aborts the
sequence with no compensating action, so on any abort the first command
issued was heater-disable and a successful heater-enable write never
appears in the trace. -/
theorem C7_heater_sequence {E : Type} (env : Env E) (fuel ctr : Nat)
    (level : HeaterLevel) :
    (level.setting = none →
      (env.writeResp ctr = .ok →
        heater env level fuel ctr =
          some (.ok (), ctr + 1, [.write true heaterDisableBytes .ok]))
      ∧ (∀ e : E, env.writeResp ctr = .err e →
        heater env level fuel ctr =
          some (.fail (.I2c e), ctr + 1,
            [.write true heaterDisableBytes (.err e)])))
    ∧ (∀ s : Nat, level.setting = some s →
        (env.writeResp ctr = .ok → env.writeResp (ctr + 1) = .ok →
          env.writeResp (ctr + 2) = .ok →
          heater env level fuel ctr =
            some (.ok (), ctr + 3,
              [.write true heaterDisableBytes .ok,
               .write false (heaterConfigBytes ++ [(s >>> 8) % 256, s % 256]) .ok,
               .write true heaterEnableBytes .ok]))
        ∧ (∀ e : E, env.writeResp ctr = .err e →
            heater env level fuel ctr =
              some (.fail (.I2c e), ctr + 1,
                [.write true heaterDisableBytes (.err e)]))
        ∧ (∀ e : E, env.writeResp ctr = .ok → env.writeResp (ctr + 1) = .err e →
            heater env level fuel ctr =
              some (.fail (.I2c e), ctr + 2,
                [.write true heaterDisableBytes .ok,
                 .write false (heaterConfigBytes ++ [(s >>> 8) % 256, s % 256])
                   (.err e)]))
        ∧ (∀ e : E, env.writeResp ctr = .ok → env.writeResp (ctr + 1) = .ok →
            env.writeResp (ctr + 2) = .err e →
            heater env level fuel ctr =
              some (.fail (.I2c e), ctr + 3,
                [.write true heaterDisableBytes .ok,
                 .write false (heaterConfigBytes ++ [(s >>> 8) % 256, s % 256]) .ok,
                 .write true heaterEnableBytes (.err e)])))
    ∧ (∀ (r : Res E Unit) (c : Nat) (tr : List (Act E)),
        heater env level fuel ctr = some (r, c, tr) →
        (∃ wr : WResp E, tr.head? = some (.write true heaterDisableBytes wr))
        ∧ (∀ err : Error E, r = .fail err →
            Act.write true heaterEnableBytes .ok ∉ tr)) := by
  refine ⟨?_, ?_, ?_⟩
  · intro hset
    exact ⟨heater_off_ok env fuel ctr level hset,
      fun e => heater_disable_fail env fuel ctr level e⟩
  · intro s hset
    exact ⟨heater_on_ok env fuel ctr level s hset,
      fun e => heater_disable_fail env fuel ctr level e,
      fun e => heater_config_fail env fuel ctr level s e hset,
      fun e => heater_enable_fail env fuel ctr level s e hset⟩
  · intro r c tr hrun
    cases hd : env.writeResp ctr with
    | err e =>
      rw [heater_disable_fail env fuel ctr level e hd] at hrun
      simp only [Option.some.injEq, Prod.mk.injEq] at hrun
      obtain ⟨hr, -, htr⟩ := hrun
      subst hr htr
      refine ⟨⟨.err e, rfl⟩, ?_⟩
      intro err hfail
      simp [heaterEnableBytes, heaterDisableBytes]
    | ok =>
      cases hset : level.setting with
      | none =>
        rw [heater_off_ok env fuel ctr level hset hd] at hrun
        simp only [Option.some.injEq, Prod.mk.injEq] at hrun
        obtain ⟨hr, -, htr⟩ := hrun
        subst hr htr
        refine ⟨⟨.ok, rfl⟩, ?_⟩
        intro err hfail
        simp at hfail
      | some s =>
        cases hcfg : env.writeResp (ctr + 1) with
        | err e =>
          rw [heater_config_fail env fuel ctr level s e hset hd hcfg] at hrun
          simp only [Option.some.injEq, Prod.mk.injEq] at hrun
          obtain ⟨hr, -, htr⟩ := hrun
          subst hr htr
          refine ⟨⟨.ok, rfl⟩, ?_⟩
          intro err hfail
          simp [heaterEnableBytes, heaterDisableBytes]
        | ok =>
          cases hen : env.writeResp (ctr + 2) with
          | err e =>
            rw [heater_enable_fail env fuel ctr level s e hset hd hcfg hen] at hrun
            simp only [Option.some.injEq, Prod.mk.injEq] at hrun
            obtain ⟨hr, -, htr⟩ := hrun
            subst hr htr
            refine ⟨⟨.ok, rfl⟩, ?_⟩
            intro err hfail
            simp [heaterEnableBytes, heaterDisableBytes]
          | ok =>
            rw [heater_on_ok env fuel ctr level s hset hd hcfg hen] at hrun
            simp only [Option.some.injEq, Prod.mk.injEq] at hrun
            obtain ⟨hr, -, htr⟩ := hrun
            subst hr htr
            refine ⟨⟨.ok, rfl⟩, ?_⟩
            intro err hfail
            simp at hfail

/-- Witness for C7: level 25% issues disable, configure, enable in order;
level off issues only disable; with the enable write failing the run
aborts after the three attempts with no successful enable in the trace. -/
theorem C7_heater_sequence_witness :
    heater envAllOk HeaterLevel.Quarter 5 0 =
      some (.ok (), 3,
        [.write true heaterDisableBytes .ok,
         .write false [0x30, 0x6E, 0x00, 0x9F] .ok,
         .write true heaterEnableBytes .ok])
    ∧ heater envAllOk HeaterLevel.Off 5 0 =
      some (.ok (), 1, [.write true heaterDisableBytes .ok])
    ∧ heater envEnableFail HeaterLevel.Quarter 5 0 =
      some (.fail (.I2c 5), 3,
        [.write true heaterDisableBytes .ok,
         .write false [0x30, 0x6E, 0x00, 0x9F] .ok,
         .write true heaterEnableBytes (.err 5)]) := by
  refine ⟨?_, ?_, ?_⟩
  · have h := ((C7_heater_sequence envAllOk 5 0 .Quarter).2.1 0x009F rfl).1
      rfl rfl rfl
    rw [h]
    decide
  · exact ((C7_heater_sequence envAllOk 5 0 .Off).1 rfl).1 rfl
  · have h := ((C7_heater_sequence envEnableFail 5 0 .Quarter).2.1 0x009F
      rfl).2.2.2 5 rfl rfl rfl
    rw [h]
    decide

/-! ## Lemmas: the engine as the single point of bus I/O -/

/-- Every action the recovery loop emits is engine-issued. -/
theorem retryRead_engine {E : Type} (env : Env E) (len : Nat) :
    ∀ (fuel ctr : Nat) (data : List Nat) (c : Nat) (tr : List (Act E)),
      retryRead env len fuel ctr = some (data, c, tr) →
      ∀ a ∈ tr, a.engineIssued = true
  | 0, _, _, _, _, h => by cases h
  | fuel + 1, ctr, data, c, tr, h => by
    simp only [retryRead] at h
    cases hr : env.readResp ctr with
    | ok d =>
      rw [hr] at h
      simp only [Option.some.injEq, Prod.mk.injEq] at h
      obtain ⟨-, -, htr⟩ := h
      subst htr
      intro a ha
      simp only [List.mem_singleton] at ha
      subst ha
      rfl
    | err e =>
      rw [hr] at h
      cases hrec : retryRead env len fuel (ctr + 1) with
      | none =>
        rw [hrec] at h
        cases h
      | some v =>
        obtain ⟨d2, c2, tr2⟩ := v
        rw [hrec] at h
        simp only [Option.some.injEq, Prod.mk.injEq] at h
        obtain ⟨-, -, htr⟩ := h
        subst htr
        intro a ha
        simp only [List.mem_cons] at ha
        rcases ha with rfl | rfl | ha
        · rfl
        · rfl
        · exact retryRead_engine env len fuel (ctr + 1) d2 c2 tr2 hrec a ha

/-- Every action the transaction engine emits is engine-issued. -/
theorem cmdAndRead_engine {E : Type} (env : Env E) (cmd : List Nat)
    (n fuel ctr : Nat) :
    ∀ a ∈ traceOf (cmdAndRead env cmd n fuel ctr), a.engineIssued = true := by
  intro a ha
  by_cases h2 : 2 < n
  · simp [traceOf, cmdAndRead, h2] at ha
  · by_cases h0 : n = 0
    · subst h0
      cases hw : env.writeResp ctr with
      | err e =>
        rw [cmdAndRead_zero_err env cmd fuel ctr e hw] at ha
        simp only [traceOf, List.mem_singleton] at ha
        subst ha
        rfl
      | ok =>
        rw [cmdAndRead_zero_ok env cmd fuel ctr hw] at ha
        simp only [traceOf, List.mem_singleton] at ha
        subst ha
        rfl
    · cases hw : env.writeReadResp ctr with
      | ok data =>
        simp only [cmdAndRead, if_neg h2, if_neg h0, hw, traceOf,
          List.mem_singleton] at ha
        subst ha
        rfl
      | err e =>
        cases hrec : retryRead env (3 * n) fuel (ctr + 1) with
        | none =>
          simp [cmdAndRead, if_neg h2, if_neg h0, hw, hrec, traceOf] at ha
        | some v =>
          obtain ⟨d2, c2, tr2⟩ := v
          simp only [cmdAndRead, if_neg h2, if_neg h0, hw, hrec, traceOf,
            List.mem_cons] at ha
          rcases ha with rfl | ha
          · rfl
          · exact retryRead_engine env (3 * n) fuel (ctr + 1) d2 c2 tr2 hrec a ha

/-- Membership form of `cmdAndRead_engine` for a known run. -/
theorem mem_cmdAndRead_engine {E : Type} {env : Env E} {cmd : List Nat}
    {n fuel ctr : Nat} {r : Res E (List Nat)} {c : Nat} {tr : List (Act E)}
    (h : cmdAndRead env cmd n fuel ctr = some (r, c, tr)) :
    ∀ a ∈ tr, a.engineIssued = true := by
  intro a ha
  have hall := cmdAndRead_engine env cmd n fuel ctr a
  rw [h] at hall
  exact hall ha

/-- The one-shot trace is exactly its engine call's trace. -/
theorem oneShot_trace {E : Type} (env : Env E) (lpm : LowPowerMode)
    (fuel ctr : Nat) :
    traceOf (oneShot env lpm fuel ctr) =
      traceOf (cmdAndRead env (startSamplingBytes .OneShot lpm) 2 fuel ctr) := by
  unfold oneShot
  rcases cmdAndRead env (startSamplingBytes .OneShot lpm) 2 fuel ctr with _ | ⟨r, c, tr⟩
  · rfl
  · cases r <;> rfl

/-- The auto-start trace is exactly its engine call's trace. -/
theorem autoStart_trace {E : Type} (env : Env E) (rate : SampleRate)
    (lpm : LowPowerMode) (fuel ctr : Nat) :
    traceOf (autoStart env rate lpm fuel ctr) =
      traceOf (cmdAndRead env (startSamplingBytes rate lpm) 0 fuel ctr) := by
  unfold autoStart
  rcases cmdAndRead env (startSamplingBytes rate lpm) 0 fuel ctr with _ | ⟨r, c, tr⟩
  · rfl
  · cases r <;> rfl

/-- The auto-stop trace is exactly its engine call's trace. -/
theorem autoStop_trace {E : Type} (env : Env E) (fuel ctr : Nat) :
    traceOf (autoStop env fuel ctr) =
      traceOf (cmdAndRead env autoExitBytes 0 fuel ctr) := by
  unfold autoStop
  rcases cmdAndRead env autoExitBytes 0 fuel ctr with _ | ⟨r, c, tr⟩
  · rfl
  · cases r <;> rfl

/-- The auto-read trace is exactly its engine call's trace. -/
theorem autoRead_trace {E : Type} (env : Env E) (target : AutoReadTarget)
    (fuel ctr : Nat) :
    traceOf (autoRead env target fuel ctr) =
      traceOf (cmdAndRead env (autoReadBytes target) (autoReadLen target) fuel ctr) := by
  unfold autoRead
  rcases cmdAndRead env (autoReadBytes target) (autoReadLen target) fuel ctr with _ | ⟨r, c, tr⟩
  · rfl
  · cases r <;> rfl

/-- The manufacturer-ID trace is exactly its engine call's trace. -/
theorem readManufacturerId_trace {E : Type} (env : Env E) (fuel ctr : Nat) :
    traceOf (readManufacturerId env fuel ctr) =
      traceOf (cmdAndRead env manufacturerIDBytes 1 fuel ctr) := by
  unfold readManufacturerId
  rcases cmdAndRead env manufacturerIDBytes 1 fuel ctr with _ | ⟨r, c, tr⟩
  · rfl
  · cases r <;> rfl

/-- The soft-reset trace is exactly its engine call's trace. -/
theorem softwareReset_trace {E : Type} (env : Env E) (fuel ctr : Nat) :
    traceOf (softwareReset env fuel ctr) =
      traceOf (cmdAndRead env softResetBytes 0 fuel ctr) := by
  unfold softwareReset
  rcases cmdAndRead env softResetBytes 0 fuel ctr with _ | ⟨r, c, tr⟩
  · rfl
  · cases r <;> rfl

/-- Every action of a status read/clear run is engine-issued. -/
theorem readStatus_engine {E : Type} (env : Env E) (clear : Bool)
    (fuel ctr : Nat) :
    ∀ a ∈ traceOf (readStatus env clear fuel ctr), a.engineIssued = true := by
  intro a ha
  unfold readStatus at ha
  rcases h1 : cmdAndRead env statusReadBytes 1 fuel ctr with _ | ⟨r1, c1, tr1⟩
  · simp [h1, traceOf] at ha
  · cases r1 with
    | fail err =>
      simp [h1, traceOf] at ha
      exact mem_cmdAndRead_engine h1 a ha
    | ok vals =>
      cases clear with
      | false =>
        simp [h1, traceOf] at ha
        exact mem_cmdAndRead_engine h1 a ha
      | true =>
        rcases h2 : cmdAndRead env statusClearBytes 0 fuel c1 with _ | ⟨r2, c2, tr2⟩
        · simp [h1, h2, traceOf] at ha
        · cases r2 with
          | fail err =>
            simp [h1, h2, traceOf] at ha
            rcases ha with ha | ha
            · exact mem_cmdAndRead_engine h1 a ha
            · exact mem_cmdAndRead_engine h2 a ha
          | ok v =>
            simp [h1, h2, traceOf] at ha
            rcases ha with ha | ha
            · exact mem_cmdAndRead_engine h1 a ha
            · exact mem_cmdAndRead_engine h2 a ha

/-- Every action of a serial-number run is engine-issued. -/
theorem readSerialNumber_engine {E : Type} (env : Env E) (fuel ctr : Nat) :
    ∀ a ∈ traceOf (readSerialNumber env fuel ctr), a.engineIssued = true := by
  intro a ha
  unfold readSerialNumber at ha
  rcases h1 : cmdAndRead env serialID54Bytes 1 fuel ctr with _ | ⟨r1, c1, tr1⟩
  · simp [h1, traceOf] at ha
  · cases r1 with
    | fail err =>
      simp [h1, traceOf] at ha
      exact mem_cmdAndRead_engine h1 a ha
    | ok v54 =>
      rcases h2 : cmdAndRead env serialID32Bytes 1 fuel c1 with _ | ⟨r2, c2, tr2⟩
      · simp [h1, h2, traceOf] at ha
      · cases r2 with
        | fail err =>
          simp [h1, h2, traceOf] at ha
          rcases ha with ha | ha
          · exact mem_cmdAndRead_engine h1 a ha
          · exact mem_cmdAndRead_engine h2 a ha
        | ok v32 =>
          rcases h3 : cmdAndRead env serialID10Bytes 1 fuel c2 with _ | ⟨r3, c3, tr3⟩
          · simp [h1, h2, h3, traceOf] at ha
          · cases r3 with
            | fail err =>
              simp [h1, h2, h3, traceOf] at ha
              rcases ha with ha | ha | ha
              · exact mem_cmdAndRead_engine h1 a ha
              · exact mem_cmdAndRead_engine h2 a ha
              · exact mem_cmdAndRead_engine h3 a ha
            | ok v10 =>
              simp [h1, h2, h3, traceOf] at ha
              rcases ha with ha | ha | ha
              · exact mem_cmdAndRead_engine h1 a ha
              · exact mem_cmdAndRead_engine h2 a ha
              · exact mem_cmdAndRead_engine h3 a ha

/-- Every non-engine action of a heater run is the direct configure
write. -/
theorem heater_nonengine {E : Type} (env : Env E) (level : HeaterLevel)
    (fuel ctr : Nat) :
    ∀ a ∈ traceOf (heater env level fuel ctr), a.engineIssued = false →
      ∃ (s : Nat) (wr : WResp E), level.setting = some s ∧
        a = .write false (heaterConfigBytes ++ [(s >>> 8) % 256, s % 256]) wr := by
  intro a ha hne
  cases hd : env.writeResp ctr with
  | err e =>
    rw [heater_disable_fail env fuel ctr level e hd] at ha
    simp only [traceOf, List.mem_singleton] at ha
    subst ha
    simp [Act.engineIssued] at hne
  | ok =>
    cases hset : level.setting with
    | none =>
      rw [heater_off_ok env fuel ctr level hset hd] at ha
      simp only [traceOf, List.mem_singleton] at ha
      subst ha
      simp [Act.engineIssued] at hne
    | some s =>
      cases hcfg : env.writeResp (ctr + 1) with
      | err e =>
        rw [heater_config_fail env fuel ctr level s e hset hd hcfg] at ha
        simp only [traceOf, List.mem_cons, List.not_mem_nil, or_false] at ha
        rcases ha with rfl | rfl
        · simp [Act.engineIssued] at hne
        · exact ⟨s, .err e, rfl, rfl⟩
      | ok =>
        cases hen : env.writeResp (ctr + 2) with
        | err e =>
          rw [heater_enable_fail env fuel ctr level s e hset hd hcfg hen] at ha
          simp only [traceOf, List.mem_cons, List.not_mem_nil, or_false] at ha
          rcases ha with rfl | rfl | rfl
          · simp [Act.engineIssued] at hne
          · exact ⟨s, .ok, rfl, rfl⟩
          · simp [Act.engineIssued] at hne
        | ok =>
          rw [heater_on_ok env fuel ctr level s hset hd hcfg hen] at ha
          simp only [traceOf, List.mem_cons, List.not_mem_nil, or_false] at ha
          rcases ha with rfl | rfl | rfl
          · simp [Act.engineIssued] at hne
          · exact ⟨s, .ok, rfl, rfl⟩
          · simp [Act.engineIssued] at hne

/-- C8 counterexample: a successful heater run at level 25% contains a
bus write issued directly, not through `cmd_and_read` (the 4-byte
heater-configure write), so the engine is not the single point of bus
I/O. -/
theorem C8_counterexample_direct_heater_write :
    resultOf (heater envAllOk HeaterLevel.Quarter 5 0) = some (.ok ())
    ∧ (traceOf (heater envAllOk HeaterLevel.Quarter 5 0)).all
        Act.engineIssued = false := by decide

/-- C8 (amended): every command sequence except the heater performs all
of its bus transactions exclusively through `cmd_and_read`; the heater's
only departure is the heater-configure write, issued directly on the bus
with the 2-byte level parameter appended to the opcode (the engine only
accepts 2-byte commands). -/
theorem C8_bus_io_via_engine (E : Type) :
    (∀ (env : Env E) (lpm : LowPowerMode) (fuel ctr : Nat),
      ∀ a ∈ traceOf (oneShot env lpm fuel ctr), a.engineIssued = true)
    ∧ (∀ (env : Env E) (rate : SampleRate) (lpm : LowPowerMode) (fuel ctr : Nat),
      ∀ a ∈ traceOf (autoStart env rate lpm fuel ctr), a.engineIssued = true)
    ∧ (∀ (env : Env E) (fuel ctr : Nat),
      ∀ a ∈ traceOf (autoStop env fuel ctr), a.engineIssued = true)
    ∧ (∀ (env : Env E) (target : AutoReadTarget) (fuel ctr : Nat),
      ∀ a ∈ traceOf (autoRead env target fuel ctr), a.engineIssued = true)
    ∧ (∀ (env : Env E) (clear : Bool) (fuel ctr : Nat),
      ∀ a ∈ traceOf (readStatus env clear fuel ctr), a.engineIssued = true)
    ∧ (∀ (env : Env E) (fuel ctr : Nat),
      ∀ a ∈ traceOf (readSerialNumber env fuel ctr), a.engineIssued = true)
    ∧ (∀ (env : Env E) (fuel ctr : Nat),
      ∀ a ∈ traceOf (readManufacturerId env fuel ctr), a.engineIssued = true)
    ∧ (∀ (env : Env E) (fuel ctr : Nat),
      ∀ a ∈ traceOf (softwareReset env fuel ctr), a.engineIssued = true)
    ∧ (∀ (env : Env E) (level : HeaterLevel) (fuel ctr : Nat),
      ∀ a ∈ traceOf (heater env level fuel ctr), a.engineIssued = false →
        ∃ (s : Nat) (wr : WResp E), level.setting = some s ∧
          a = .write false (heaterConfigBytes ++ [(s >>> 8) % 256, s % 256]) wr) := by
  refine ⟨?_, ?_, ?_, ?_, ?_, ?_, ?_, ?_, ?_⟩
  · intro env lpm fuel ctr a ha
    rw [oneShot_trace] at ha
    exact cmdAndRead_engine env _ 2 fuel ctr a ha
  · intro env rate lpm fuel ctr a ha
    rw [autoStart_trace] at ha
    exact cmdAndRead_engine env _ 0 fuel ctr a ha
  · intro env fuel ctr a ha
    rw [autoStop_trace] at ha
    exact cmdAndRead_engine env _ 0 fuel ctr a ha
  · intro env target fuel ctr a ha
    rw [autoRead_trace] at ha
    exact cmdAndRead_engine env _ _ fuel ctr a ha
  · exact readStatus_engine
  · exact readSerialNumber_engine
  · intro env fuel ctr a ha
    rw [readManufacturerId_trace] at ha
    exact cmdAndRead_engine env _ 1 fuel ctr a ha
  · intro env fuel ctr a ha
    rw [softwareReset_trace] at ha
    exact cmdAndRead_engine env _ 0 fuel ctr a ha
  · exact heater_nonengine

/-- Witness for C8: a serial-number run's first action is engine-issued,
and the non-engine action of a heater run at 25% is the configure write
carrying the level parameter. -/
theorem C8_bus_io_via_engine_witness :
    Act.engineIssued (E := Nat)
      (.writeRead serialID54Bytes 3 (.ok [0xAA, 0xBB, crcChecksum [0xAA, 0xBB]])) = true
    ∧ ∃ (s : Nat) (wr : WResp Nat), HeaterLevel.Quarter.setting = some s ∧
        Act.write false [0x30, 0x6E, 0x00, 0x9F] .ok =
          .write false (heaterConfigBytes ++ [(s >>> 8) % 256, s % 256]) wr := by
  constructor
  · exact (C8_bus_io_via_engine Nat).2.2.2.2.2.1 envSerial 5 0 _ (by decide)
  · exact (C8_bus_io_via_engine Nat).2.2.2.2.2.2.2.2 envAllOk .Quarter 5 0
      (.write false [0x30, 0x6E, 0x00, 0x9F] .ok) (by decide) rfl

/-! ## Status decoding and manufacturer ID -/

/-- C9: decoding a status word in which only the heater-enabled bit
(bit 13) is set yields a `StatusBits` whose `heater_enabled` flag is true
and whose nine other flags are all false, and for every status word the
`raw` accessor of the decoded value returns the original word. -/
theorem C9_status_bits_decode :
    (statusBitsFrom (1 <<< 13) =
      { raw := 1 <<< 13
        at_least_one_alert := false
        heater_enabled := true
        rh_tracking_alert := false
        t_tracking_alert := false
        rh_high_tracking_alert := false
        rh_low_tracking_alert := false
        t_high_tracking_alert := false
        t_low_tracking_alert := false
        reset_since_clear := false
        checksum_failure := false })
    ∧ ∀ w : Nat, (statusBitsFrom w).raw = w :=
  ⟨by decide, fun w => rfl⟩

/-- C10: manufacturer-ID conversion is a lossless round trip: converting
any raw value into a `ManufacturerId` (the Texas Instruments constant to
the vendor variant, anything else to `Other`) and back yields the
original value. -/
theorem C10_manufacturer_id_round_trip (r : Nat) :
    manufacturerIdIntoU16 (manufacturerIdFromU16 r) = r := by
  by_cases h : r = MANUFACTURER_ID_TEXAS_INSTRUMENTS
  · simp [manufacturerIdFromU16, manufacturerIdIntoU16, h]
  · simp [manufacturerIdFromU16, manufacturerIdIntoU16, h]

end Hdc302x
